import Mathlib

/-!
Shallow embedding of `kindle_maker/ebooklib.py` (the `Ebook`/`Chapter`/`EbookUtil`
document model and build pipeline), together with theorems settling the spec
claims about it. Python strings are `String`, byte strings are `List Nat`,
`None`-able values are `Option`, raised exceptions are `Except` errors.
Filesystem and subprocess effects are modelled by explicit parameters
(an `isFile` oracle, the converter's exit code) and by returning the actions
the code would perform.
-/

namespace KindleMaker

/-- ASCII approximation of Python's `\s` character class (`re` also matches
Unicode whitespace; the exact set is irrelevant to the claims proved here):
space, tab, newline, carriage return, vertical tab, form feed. -/
def isSpaceChar (c : Char) : Bool :=
  c = ' ' || c = '\t' || c = '\n' || c = '\r' || c = '\x0b' || c = '\x0c'

/-- The character class of `format_file_name`'s regex
`[/\\?%*:|"\x27<>.,;=\s+&#]+` : the listed punctuation plus whitespace. -/
def isIllegalChar (c : Char) : Bool :=
  c = '/' || c = '\\' || c = '?' || c = '%' || c = '*' || c = ':' || c = '|' ||
  c = '"' || c = '\x27' || c = '<' || c = '>' || c = '.' || c = ',' || c = ';' ||
  c = '=' || isSpaceChar c || c = '+' || c = '&' || c = '#'

/-- `format_file_name` (source lines 30-34): `re.sub` of one-or-more illegal
characters with the empty string, i.e. every character of the class is removed
and all others are kept. -/
def format_file_name (path : String) : String :=
  ⟨path.data.filter (fun c => !isIllegalChar c)⟩

/-- A `Chapter` (source lines 220-276): title, depth level, attached static
file paths, and child chapters. The `ebook` back reference and the HTML
content are omitted: no claim proved here reads them. -/
inductive Chapter : Type where
  | mk : (title : String) → (level : Nat) → (static_files : List String) →
         (sub_chapters : List Chapter) → Chapter

def Chapter.title : Chapter → String
  | .mk t _ _ _ => t

def Chapter.level : Chapter → Nat
  | .mk _ l _ _ => l

def Chapter.static_files : Chapter → List String
  | .mk _ _ s _ => s

def Chapter.sub_chapters : Chapter → List Chapter
  | .mk _ _ _ sc => sc

/-- `Chapter.__init__` (source lines 223-230): a fresh chapter has the given
title and level, no static files and no sub-chapters. -/
def Chapter.init (title : String) (level : Nat := 1) : Chapter :=
  .mk title level [] []

/-- `Chapter.dest_file_path` (source lines 232-234):
`'{}.html'.format(format_file_name(self.title))`. -/
def Chapter.dest_file_path (c : Chapter) : String :=
  format_file_name c.title ++ ".html"

/-- `Chapter.is_top_chapter` (source lines 244-246): `self._level == 1`. -/
def Chapter.is_top_chapter (c : Chapter) : Bool :=
  c.level = 1

/-- C9 helper: filtering a list twice with the same predicate equals
filtering it once. -/
theorem filter_idem {α : Type} (p : α → Bool) (l : List α) :
    (l.filter p).filter p = l.filter p := by
  induction l with
  | nil => rfl
  | cons a l ih =>
    by_cases h : p a = true
    · simp [List.filter_cons, h, ih]
    · simp [List.filter_cons, h, ih]

/-- C9: title sanitization is idempotent — applying `format_file_name` to an
already-sanitized string returns it unchanged. -/
theorem format_file_name_idempotent (s : String) :
    format_file_name (format_file_name s) = format_file_name s := by
  unfold format_file_name
  exact congrArg String.mk (filter_idem _ s.data)

/-! ## Heading index (`EbookUtil.headings`, source lines 95-123) -/

/-- One entry of a top-level heading's `sub_headings` list:
`dict(title=sc.title, play_order=order, file_name=str(sc.dest_file_path))`. -/
structure SubHeading where
  title : String
  play_order : Nat
  file_name : String
deriving DecidableEq, Repr

/-- One heading dict:
`dict(title=c.title, play_order=order, file_name=str(c.dest_file_path), sub_headings=[...])`. -/
structure Heading where
  title : String
  play_order : Nat
  file_name : String
  sub_headings : List SubHeading
deriving DecidableEq, Repr

/-- The inner loop of `headings`: walk `c.sub_chapters` in order, incrementing
the counter before each entry; returns the final counter value together with
the accumulated `sub_headings` list. -/
def subHeadingsAux (order : Nat) : List Chapter → Nat × List SubHeading
  | [] => (order, [])
  | sc :: scs =>
    ((subHeadingsAux (order + 1) scs).1,
     ⟨sc.title, order + 1, sc.dest_file_path⟩ :: (subHeadingsAux (order + 1) scs).2)

/-- The outer loop of `headings`: walk `chapter_list` in order; for each
chapter increment the counter, emit its heading, then process its
sub-chapters, threading the counter through. -/
def headingsAux (order : Nat) : List Chapter → List Heading
  | [] => []
  | c :: cs =>
    ⟨c.title, order + 1, c.dest_file_path,
      (subHeadingsAux (order + 1) c.sub_chapters).2⟩ ::
    headingsAux (subHeadingsAux (order + 1) c.sub_chapters).1 cs

/-- `EbookUtil.headings` (source lines 95-123) as a pure function of the
chapter list: the counter starts at `order = 1` and is incremented before
the first entry. (The source also caches the result in `self._headings`;
the cache never changes the value computed here.) -/
def headings (chapter_list : List Chapter) : List Heading :=
  headingsAux 1 chapter_list

/-- Pre-order flattening of a heading list: each heading's own
`(title, play_order, file_name)` triple followed by those of its
`sub_headings`. -/
def flattenHeadings (hs : List Heading) : List (String × Nat × String) :=
  (hs.map (fun h =>
    (h.title, h.play_order, h.file_name) ::
      h.sub_headings.map (fun s => (s.title, s.play_order, s.file_name)))).flatten

/-- Pre-order traversal of the chapter tree in insertion order: each
top-level chapter's title followed by its sub-chapters' titles. -/
def preorderTitles (chs : List Chapter) : List String :=
  (chs.map (fun c => c.title :: c.sub_chapters.map Chapter.title)).flatten

/-- Number of nodes of the (depth-two) chapter tree. -/
def numNodes (chs : List Chapter) : Nat :=
  (preorderTitles chs).length

/-- The triple a heading entry holds for a node with title `t`, given its
play order `k`. -/
def entryOf (t : String) (k : Nat) : String × Nat × String :=
  (t, k, format_file_name t ++ ".html")

/-- The expected flattened index: titles `ts` in order, decorated with
consecutive play orders starting at `k` and sanitized file names. -/
def decorate (k : Nat) : List String → List (String × Nat × String)
  | [] => []
  | t :: ts => entryOf t k :: decorate (k + 1) ts

theorem decorate_append (k : Nat) (xs ys : List String) :
    decorate k (xs ++ ys) = decorate k xs ++ decorate (k + xs.length) ys := by
  induction xs generalizing k with
  | nil => simp [decorate]
  | cons x xs ih =>
    have harith : k + 1 + xs.length = k + (xs.length + 1) := by omega
    calc decorate k ((x :: xs) ++ ys)
        = entryOf x k :: decorate (k + 1) (xs ++ ys) := rfl
      _ = entryOf x k ::
            (decorate (k + 1) xs ++ decorate (k + 1 + xs.length) ys) := by
          rw [ih (k + 1)]
      _ = entryOf x k ::
            (decorate (k + 1) xs ++ decorate (k + (xs.length + 1)) ys) := by
          rw [harith]
      _ = decorate k (x :: xs) ++ decorate (k + (x :: xs).length) ys := rfl

theorem subHeadingsAux_counter (order : Nat) (scs : List Chapter) :
    (subHeadingsAux order scs).1 = order + scs.length := by
  induction scs generalizing order with
  | nil => simp [subHeadingsAux]
  | cons sc scs ih =>
    simp only [subHeadingsAux, List.length_cons, ih (order + 1)]
    omega

theorem subHeadingsAux_entries (order : Nat) (scs : List Chapter) :
    (subHeadingsAux order scs).2.map (fun s => (s.title, s.play_order, s.file_name)) =
      decorate (order + 1) (scs.map Chapter.title) := by
  induction scs generalizing order with
  | nil => simp [subHeadingsAux, decorate]
  | cons sc scs ih =>
    simp only [subHeadingsAux, List.map_cons, decorate, entryOf,
      Chapter.dest_file_path, ih (order + 1)]

theorem flattenHeadings_headingsAux (order : Nat) (chs : List Chapter) :
    flattenHeadings (headingsAux order chs) =
      decorate (order + 1) (preorderTitles chs) := by
  induction chs generalizing order with
  | nil => simp [flattenHeadings, headingsAux, preorderTitles, decorate]
  | cons c cs ih =>
    have hjoin :
        flattenHeadings (headingsAux order (c :: cs)) =
          ((c.title, order + 1, c.dest_file_path) ::
            (subHeadingsAux (order + 1) c.sub_chapters).2.map
              (fun s => (s.title, s.play_order, s.file_name))) ++
          flattenHeadings
            (headingsAux (subHeadingsAux (order + 1) c.sub_chapters).1 cs) := by
      simp [flattenHeadings, headingsAux]
    rw [hjoin, ih, subHeadingsAux_entries, subHeadingsAux_counter]
    have hpre : preorderTitles (c :: cs) =
        (c.title :: c.sub_chapters.map Chapter.title) ++ preorderTitles cs := by
      simp [preorderTitles]
    rw [hpre, decorate_append]
    simp only [List.cons_append, decorate, entryOf, Chapter.dest_file_path,
      List.length_cons, List.length_map]
    have : order + 1 + c.sub_chapters.length + 1 =
        order + 1 + (c.sub_chapters.length + 1) := by omega
    rw [this]

theorem decorate_orders (k : Nat) (ts : List String) :
    (decorate k ts).map (fun x => x.2.1) = List.range' k ts.length := by
  induction ts generalizing k with
  | nil => simp [decorate]
  | cons t ts ih => simp [decorate, entryOf, List.range'_succ, ih]

theorem decorate_title_file (k : Nat) (ts : List String) :
    (decorate k ts).map (fun x => (x.1, x.2.2)) =
      ts.map (fun t => (t, format_file_name t ++ ".html")) := by
  induction ts generalizing k with
  | nil => rfl
  | cons t ts ih => simp [decorate, entryOf, ih]

/-- C1: the heading index enumerates the chapter tree in pre-order insertion
order: the play orders along the flattened index are the consecutive integers
starting at 2 (continuous across the whole tree), each top-level chapter's
entry preceding its sub-chapters' entries, and every entry carries the node's
title together with its sanitized destination file name. -/
theorem headings_preorder_consecutive (chs : List Chapter) :
    (flattenHeadings (headings chs)).map (fun x => x.2.1) =
      List.range' 2 (numNodes chs) ∧
    (flattenHeadings (headings chs)).map (fun x => (x.1, x.2.2)) =
      (preorderTitles chs).map (fun t => (t, format_file_name t ++ ".html")) := by
  constructor
  · rw [headings, flattenHeadings_headingsAux, decorate_orders, numNodes]
  · rw [headings, flattenHeadings_headingsAux, decorate_title_file]

/-! ## The `Ebook` aggregate and its operations -/

/-- Python truthiness of an optional string: `None` and `''` are falsy. -/
def truthyStr : Option String → Bool
  | none => false
  | some s => !s.isEmpty

/-- Python truthiness of an optional byte string: `None` and `b''` are falsy. -/
def truthyBytes : Option (List Nat) → Bool
  | none => false
  | some b => !b.isEmpty

/-- The `Ebook` state (source lines 279-296): title, author, format string,
cover path / raw cover content (both `None`-able), and the ordered list of
top-level chapters. The temp directory path and the cached `EbookUtil` are
modelled elsewhere (as explicit parameters). -/
structure Ebook where
  title : String
  author : Option String
  format : String
  cover_path : Option String
  cover_content : Option (List Nat)
  chapter_list : List Chapter

/-- `Ebook.__init__` (source lines 281-296): fresh book with no cover set and
an empty chapter list. -/
def Ebook.init (title : String) (author : Option String := none)
    (ebook_format : String := "mobi") : Ebook :=
  { title := title, author := author, format := ebook_format,
    cover_path := none, cover_content := none, chapter_list := [] }

/-- `Ebook.set_cover` (source lines 311-321): a truthy `cover_path` wins and
clears `cover_content`; otherwise a truthy `cover_content` wins and clears
`cover_path`; otherwise `ValueError` is raised and the state is unchanged. -/
def Ebook.set_cover (e : Ebook) (cover_path : Option String := none)
    (cover_content : Option (List Nat) := none) : Except String Ebook :=
  if truthyStr cover_path then
    .ok { e with cover_path := cover_path, cover_content := none }
  else if truthyBytes cover_content then
    .ok { e with cover_content := cover_content, cover_path := none }
  else
    .error "img_path and img_content are both empty"

/-- `Ebook.add_chapter` (source lines 323-327): raises `ValueError` unless the
chapter is top-level (level 1); on success appends it to `chapter_list` and
returns the book. -/
def Ebook.add_chapter (e : Ebook) (chapter : Chapter) : Except String Ebook :=
  if chapter.is_top_chapter then
    .ok { e with chapter_list := e.chapter_list ++ [chapter] }
  else
    .error "only chapters with level 1 are accepted"

/-- `Ebook.create_chapter` (source lines 329-335): constructs a level-1
chapter and attaches it via `add_chapter`. -/
def Ebook.create_chapter (e : Ebook) (chapter_title : String) :
    Except String (Ebook × Chapter) :=
  match e.add_chapter (Chapter.init chapter_title) with
  | .ok e' => .ok (e', Chapter.init chapter_title)
  | .error msg => .error msg

/-! ## `Chapter.create_subchapter` and `Chapter.add_static_files` -/

/-- `Chapter.max_level` (source line 221). -/
def max_level : Nat := 2

/-- Outcome of `Chapter.create_subchapter`. -/
inductive SubchapterOutcome where
  | levelError
      -- `Exception('chapter level is great than the max level num: 2')`
  | typeError
      -- Python `TypeError`: `Chapter.__init__` receives `level` twice
  | created (parent : Chapter) (child : Chapter)
      -- child appended to `parent.sub_chapters` and returned

/-- `Chapter.create_subchapter` (source lines 258-267). When
`self._level >= max_level` it raises the level `Exception`. Otherwise it
evaluates `Chapter(chapter_title, self._ebook, chapter_file_path,
level=self._level + 1)`; `Chapter.__init__`'s parameters are
`(self, title, ebook, level=1)`, so the third positional argument
`chapter_file_path` already binds `level`, and the keyword `level=...` binds
it a second time — Python raises `TypeError: got multiple values for
argument 'level'` before the constructor body runs, for every title and
every value of `chapter_file_path` (its default `None` included). No child
is ever constructed or appended; the `created` outcome is unreachable. -/
def Chapter.create_subchapter (c : Chapter) (chapter_title : String) :
    SubchapterOutcome :=
  if c.level ≥ max_level then
    SubchapterOutcome.levelError
  else
    let _ := chapter_title
    SubchapterOutcome.typeError

/-- Replace a chapter's static file list (the effect of
`self._static_files.extend(file_path)`). -/
def Chapter.withStaticFiles (c : Chapter) (fs : List String) : Chapter :=
  .mk c.title c.level fs c.sub_chapters

/-- The `assert` loop of `add_static_files`: check every path against the
filesystem oracle `isFile`, failing with `AssertionError('{f} is not a
file')` at the first path that is not a file. -/
def checkFilesExist (isFile : String → Bool) : List String → Except String Unit
  | [] => .ok ()
  | f :: fs =>
    if isFile f then checkFilesExist isFile fs
    else .error (f ++ " is not a file")

/-- `Chapter.add_static_files` (source lines 252-256): first the `assert`
loop runs over the whole argument tuple; only after every check passes does
`extend` append the paths to `self._static_files`. A raised assertion
propagates before `extend` runs, so the list is unchanged on failure. -/
def Chapter.add_static_files (isFile : String → Bool) (c : Chapter)
    (file_path : List String) : Except String Chapter :=
  match checkFilesExist isFile file_path with
  | .error msg => .error msg
  | .ok _ => .ok (c.withStaticFiles (c.static_files ++ file_path))

/-! ## Build pipeline (`EbookUtil`, `Ebook._create`/`save`/`show`) -/

/-- Exceptions the build pipeline can raise. -/
inductive BuildErr where
  | valueError (msg : String)       -- `ValueError`
  | notImplementedError             -- `NotImplementedError`
  | attributeError                  -- `getattr` on an unknown format string
deriving DecidableEq

/-- What `_save_cover` does to the staging directory. -/
inductive CoverAction where
  | copy (path : String)   -- `shutil.copy(self._ebook.cover_path, tmpdir)`
  | defaultCover           -- copy the bundled `templates/cover.jpg`
deriving DecidableEq

/-- `EbookUtil._save_cover` (source lines 162-171): a truthy `cover_path` is
copied into the staging directory; otherwise a truthy `cover_content` raises
`NotImplementedError`; otherwise the bundled default cover is copied. -/
def EbookUtil._save_cover (e : Ebook) : Except BuildErr CoverAction :=
  if truthyStr e.cover_path then
    .ok (CoverAction.copy (e.cover_path.getD ""))
  else if truthyBytes e.cover_content then
    .error BuildErr.notImplementedError
  else
    .ok CoverAction.defaultCover

/-- The manifest file name rendered by `_render_opf` (source lines 149-160):
`'{}.opf'.format(format_file_name(title))`. -/
def opfFileName (title : String) : String :=
  format_file_name title ++ ".opf"

/-- `EbookUtil._generate_all_files` (source lines 179-189): renders
`toc.ncx`, `toc.html` and the opf (rendering always succeeds in this model),
stages the cover (which may raise), writes the chapter files, and returns the
opf file name. -/
def EbookUtil._generate_all_files (e : Ebook) : Except BuildErr String :=
  match EbookUtil._save_cover e with
  | .error err => .error err
  | .ok _ => .ok (opfFileName e.title)

/-- `EbookUtil._create_mobi` (source lines 191-201): generate all files, then
invoke the converter (`subprocess.call` returning exit code `rc`); the
`if rc != 0:` branch is `pass` — the `raise` is commented out in the source,
so a non-zero exit code is ignored and no exception is raised. -/
def EbookUtil._create_mobi (e : Ebook) (rc : Int) : Except BuildErr Unit :=
  match EbookUtil._generate_all_files e with
  | .error err => .error err
  | .ok _opf => if rc ≠ 0 then .ok () else .ok ()

/-- The archive name `ZipFile.write(filename)` stores when no `arcname`
argument is given (POSIX): `os.path.splitdrive` is the identity, `normpath`
is the identity on the already-normal paths built here, and the leading path
separators are stripped. -/
def zipDefaultArcname (filename : String) : String :=
  ⟨filename.data.dropWhile (fun c => c = '/')⟩

/-- `EbookUtil._create_epub` (source lines 203-214): after generating all
files it walks the staging directory (`walked` lists the `(root, files)`
pairs `os.walk` yields, the flat staging directory giving a single pair
rooted at `tmpdir`) and calls `zipf.write(os.path.join(root, file))` for
every file — with no `arcname`, so each entry is stored under
`zipDefaultArcname` of its full path. Returns the list of entry names
written to the archive. -/
def EbookUtil._create_epub (e : Ebook)
    (walked : List (String × List String)) : Except BuildErr (List String) :=
  match EbookUtil._generate_all_files e with
  | .error err => .error err
  | .ok _ =>
    .ok ((walked.map (fun rf =>
      rf.2.map (fun file => zipDefaultArcname (rf.1 ++ "/" ++ file)))).flatten)

/-- What a completed build produced. -/
inductive BuildResult where
  | mobi                      -- converter invoked on the staged opf
  | epub (entries : List String)  -- ZIP written with these entry names
deriving DecidableEq

/-- `EbookUtil.create` (source lines 216-217):
`getattr(self, '_create_{format}')()` — dispatch on the format string; an
unknown format raises `AttributeError`. `rc` is the converter's exit code
(mobi), `walked` the `os.walk` listing of the staging directory (epub). -/
def EbookUtil.create (e : Ebook) (rc : Int)
    (walked : List (String × List String)) : Except BuildErr BuildResult :=
  if e.format = "mobi" then
    match EbookUtil._create_mobi e rc with
    | .error err => .error err
    | .ok _ => .ok BuildResult.mobi
  else if e.format = "epub" then
    match EbookUtil._create_epub e walked with
    | .error err => .error err
    | .ok entries => .ok (BuildResult.epub entries)
  else
    .error BuildErr.attributeError

/-- `Ebook._create` (source lines 337-340): raises
`ValueError('chapter list is empty')` when `chapter_list` is empty, before
delegating to `EbookUtil.create`; otherwise the util runs the build. -/
def Ebook._create (e : Ebook) (rc : Int)
    (walked : List (String × List String)) : Except BuildErr BuildResult :=
  if e.chapter_list.isEmpty then
    .error (BuildErr.valueError "chapter list is empty")
  else
    EbookUtil.create e rc walked

/-- `Ebook.save` (source lines 342-354): `self._create()` first; only then is
the artifact copied to the destination (a filesystem effect outside this
model). An exception from `_create` propagates before any copy happens. -/
def Ebook.save (e : Ebook) (rc : Int)
    (walked : List (String × List String)) : Except BuildErr BuildResult :=
  Ebook._create e rc walked

/-- `Ebook.show` (source lines 356-367): `self._create()` first; only then is
the artifact opened with the platform viewer (outside this model). -/
def Ebook.show (e : Ebook) (rc : Int)
    (walked : List (String × List String)) : Except BuildErr BuildResult :=
  Ebook._create e rc walked

/-! ## Helper lemmas -/

theorem checkFilesExist_ok (isFile : String → Bool) (fps : List String)
    (h : ∀ f ∈ fps, isFile f = true) :
    checkFilesExist isFile fps = Except.ok () := by
  induction fps with
  | nil => rfl
  | cons f fs ih =>
    have hf := h f (List.mem_cons_self f fs)
    simp only [checkFilesExist, hf, if_true]
    exact ih (fun g hg => h g (List.mem_cons_of_mem f hg))

theorem checkFilesExist_err (isFile : String → Bool) (fps : List String)
    (h : ∃ f ∈ fps, isFile f = false) :
    ∃ g ∈ fps, isFile g = false ∧
      checkFilesExist isFile fps = Except.error (g ++ " is not a file") := by
  induction fps with
  | nil => simp at h
  | cons f fs ih =>
    by_cases hf : isFile f = true
    · obtain ⟨g, hg, hgf⟩ := h
      rcases List.mem_cons.mp hg with heq | hg'
      · rw [heq, hf] at hgf; cases hgf
      · obtain ⟨g', hg'', hgf', hch⟩ := ih ⟨g, hg', hgf⟩
        exact ⟨g', List.mem_cons_of_mem f hg'', hgf', by
          simp only [checkFilesExist, hf, if_true]; exact hch⟩
    · have hf' : isFile f = false := by
        cases hb : isFile f with
        | false => rfl
        | true => exact absurd hb hf
      exact ⟨f, List.mem_cons_self f fs, hf', by
        simp [checkFilesExist, hf']⟩

/-! ## Claim theorems -/

/-- C2 (evaluation at the failing input): `_create_epub` calls
`ZipFile.write(os.path.join(root, file))` with no `arcname`, so the entry for
`T.html` in staging directory `/tmp/1600000000.0` is stored under
`tmp/1600000000.0/T.html` (the absolute path with the leading separator
stripped) — not under the staging-relative path `T.html` that the claim
asserts. -/
theorem create_epub_entry_not_relative :
    EbookUtil._create_epub (Ebook.init "T" none "epub")
        [("/tmp/1600000000.0", ["T.html"])] =
      Except.ok ["tmp/1600000000.0/T.html"] ∧
    (("tmp/1600000000.0/T.html" : String) == "T.html") = false := by
  constructor
  · rfl
  · decide

/-- C3 (evaluation): `create_subchapter` on a chapter at `max_level` raises
the level `Exception`; on a chapter below the maximum level (in particular
every top-level chapter) it raises `TypeError`, because the `Chapter(...)`
call binds `level` both positionally and by keyword; the `created` outcome —
what the claim says happens — is unreachable for every chapter and title. -/
theorem create_subchapter_never_creates (c : Chapter) (t : String) :
    (c.level ≥ max_level →
       c.create_subchapter t = SubchapterOutcome.levelError) ∧
    (c.level < max_level →
       c.create_subchapter t = SubchapterOutcome.typeError) ∧
    (∀ p ch, c.create_subchapter t ≠ SubchapterOutcome.created p ch) := by
  refine ⟨fun h => ?_, fun h => ?_, fun p ch => ?_⟩
  · simp [Chapter.create_subchapter, h]
  · simp [Chapter.create_subchapter, Nat.not_le_of_lt h]
  · unfold Chapter.create_subchapter
    split <;> simp

theorem create_subchapter_never_creates_witness :
    (Chapter.init "sub" 2).create_subchapter "x" =
      SubchapterOutcome.levelError ∧
    (Chapter.init "top" 1).create_subchapter "x" =
      SubchapterOutcome.typeError ∧
    (Chapter.init "top" 1).create_subchapter "x" ≠
      SubchapterOutcome.created (Chapter.init "top" 1) (Chapter.init "x" 2) :=
  ⟨(create_subchapter_never_creates _ _).1 (by decide),
   (create_subchapter_never_creates _ _).2.1 (by decide),
   (create_subchapter_never_creates _ _).2.2 _ _⟩

/-- C4: `add_chapter` raises `ValueError` for every chapter whose level is
not 1 — the append is never reached, so the chapter list is unchanged — and
appends a level-1 chapter at the end of `chapter_list`. -/
theorem add_chapter_level_check (e : Ebook) (c : Chapter) :
    (c.level ≠ 1 →
       Ebook.add_chapter e c =
         Except.error "only chapters with level 1 are accepted") ∧
    (c.level = 1 →
       Ebook.add_chapter e c =
         Except.ok { e with chapter_list := e.chapter_list ++ [c] }) := by
  constructor <;> intro h <;>
    simp [Ebook.add_chapter, Chapter.is_top_chapter, h]

theorem add_chapter_level_check_witness :
    Ebook.add_chapter (Ebook.init "t") (Chapter.init "s" 2) =
      Except.error "only chapters with level 1 are accepted" ∧
    Ebook.add_chapter (Ebook.init "t") (Chapter.init "c") =
      Except.ok { Ebook.init "t" with
        chapter_list := (Ebook.init "t").chapter_list ++ [Chapter.init "c"] } :=
  ⟨(add_chapter_level_check _ _).1 (by decide),
   (add_chapter_level_check _ _).2 rfl⟩

/-- C5: a build on an empty chapter list — whether entered through `save`,
`show`, or `_create` directly — raises `ValueError('chapter list is empty')`
before any staging or packaging work, for every format, cover state,
converter exit code and directory listing; with at least one chapter,
`_create` hands over to `EbookUtil.create`, which performs the build. -/
theorem build_requires_nonempty_chapters (e : Ebook) (rc : Int)
    (walked : List (String × List String)) :
    (e.chapter_list = [] →
       Ebook._create e rc walked =
           Except.error (BuildErr.valueError "chapter list is empty") ∧
         Ebook.save e rc walked =
           Except.error (BuildErr.valueError "chapter list is empty") ∧
         Ebook.show e rc walked =
           Except.error (BuildErr.valueError "chapter list is empty")) ∧
    (e.chapter_list ≠ [] →
       Ebook._create e rc walked = EbookUtil.create e rc walked) := by
  constructor <;> intro h
  · simp [Ebook._create, Ebook.save, Ebook.show, h]
  · simp [Ebook._create, List.isEmpty_iff, h]

theorem build_requires_nonempty_chapters_witness :
    Ebook.save (Ebook.init "t") 0 [] =
      Except.error (BuildErr.valueError "chapter list is empty") ∧
    Ebook._create { Ebook.init "t" with chapter_list := [Chapter.init "c"] }
        0 [] =
      EbookUtil.create { Ebook.init "t" with
        chapter_list := [Chapter.init "c"] } 0 [] :=
  ⟨((build_requires_nonempty_chapters (Ebook.init "t") 0 []).1 rfl).2.1,
   (build_requires_nonempty_chapters _ 0 []).2 (List.cons_ne_nil _ _)⟩

/-- C6: for a mobi book whose staging succeeded, a non-zero exit code from
the converter raises nothing — the `if rc != 0` branch of `_create_mobi` is
`pass` — and the build completes, returning success. -/
theorem mobi_nonzero_exit_swallowed (e : Ebook) (rc : Int) (opf : String)
    (walked : List (String × List String)) (hf : e.format = "mobi")
    (hne : e.chapter_list ≠ [])
    (hgen : EbookUtil._generate_all_files e = Except.ok opf) (hrc : rc ≠ 0) :
    Ebook._create e rc walked = Except.ok BuildResult.mobi := by
  have hrc' : (rc = 0) = False := eq_false hrc
  have hne' : e.chapter_list.isEmpty = false := by
    cases h : e.chapter_list with
    | nil => exact absurd h hne
    | cons a l => rfl
  simp [Ebook._create, hne', EbookUtil.create, hf, EbookUtil._create_mobi,
    hgen]

theorem mobi_nonzero_exit_swallowed_witness :
    Ebook._create { Ebook.init "t" with chapter_list := [Chapter.init "c"] }
        2 [] =
      Except.ok BuildResult.mobi :=
  mobi_nonzero_exit_swallowed _ 2 "t.opf" [] rfl (List.cons_ne_nil _ _) rfl
    (by decide)

/-- C7: `set_cover` is last-write-wins and mutually exclusive: a successful
call leaves set exactly the input supplied (truthy) in that call and clears
the other; a call where both inputs are falsy (in particular both omitted)
raises `ValueError`; and on a fresh book, where neither was ever set,
`_save_cover` stages the default bundled cover. -/
theorem set_cover_exclusive (e : Ebook) (p : Option String)
    (c : Option (List Nat)) :
    (truthyStr p = true →
       Ebook.set_cover e p c =
         Except.ok { e with cover_path := p, cover_content := none }) ∧
    (truthyStr p = false → truthyBytes c = true →
       Ebook.set_cover e p c =
         Except.ok { e with cover_content := c, cover_path := none }) ∧
    (truthyStr p = false → truthyBytes c = false →
       Ebook.set_cover e p c =
         Except.error "img_path and img_content are both empty") ∧
    (∀ t a f, EbookUtil._save_cover (Ebook.init t a f) =
       Except.ok CoverAction.defaultCover) :=
  ⟨fun h1 => by simp [Ebook.set_cover, h1],
   fun h1 h2 => by simp [Ebook.set_cover, h1, h2],
   fun h1 h2 => by simp [Ebook.set_cover, h1, h2],
   fun t a f => rfl⟩

theorem set_cover_exclusive_witness :
    Ebook.set_cover (Ebook.init "t") (some "c.jpg") (some [1]) =
      Except.ok { Ebook.init "t" with
        cover_path := some "c.jpg", cover_content := none } ∧
    Ebook.set_cover (Ebook.init "t") none (some [1]) =
      Except.ok { Ebook.init "t" with
        cover_content := some [1], cover_path := none } ∧
    Ebook.set_cover (Ebook.init "t") none none =
      Except.error "img_path and img_content are both empty" ∧
    EbookUtil._save_cover (Ebook.init "t") =
      Except.ok CoverAction.defaultCover :=
  ⟨(set_cover_exclusive _ _ _).1 rfl,
   (set_cover_exclusive _ _ _).2.1 rfl rfl,
   (set_cover_exclusive _ _ _).2.2.1 rfl rfl,
   (set_cover_exclusive (Ebook.init "t") none none).2.2.2 "t" none "mobi"⟩

/-- C8: a book whose cover is supplied as raw bytes (`cover_content` holds
non-empty bytes and `cover_path` is unset) makes `_save_cover` raise
`NotImplementedError`: the cover step fails loudly, it neither skips the
cover nor copies one. -/
theorem save_cover_raw_bytes_raises (e : Ebook) (bs : List Nat)
    (hp : e.cover_path = none) (hc : e.cover_content = some bs)
    (hbs : bs ≠ []) :
    EbookUtil._save_cover e = Except.error BuildErr.notImplementedError := by
  have hb : truthyBytes e.cover_content = true := by
    rw [hc]; simp [truthyBytes, hbs]
  simp [EbookUtil._save_cover, hp, truthyStr, hb]

theorem save_cover_raw_bytes_raises_witness :
    EbookUtil._save_cover { Ebook.init "t" with cover_content := some [0] } =
      Except.error BuildErr.notImplementedError :=
  save_cover_raw_bytes_raises _ [0] rfl rfl (by decide)

/-- C10: `add_static_files` checks every path before recording any: when all
paths are files, the whole argument list is appended to the chapter's static
file list in order; when some path is not a file, the call raises the
assertion for the first such path and the extend step is never reached, so
the chapter's static file list is unchanged — no prefix is attached. -/
theorem add_static_files_atomic (isFile : String → Bool) (c : Chapter)
    (fps : List String) :
    ((∀ f ∈ fps, isFile f = true) →
       Chapter.add_static_files isFile c fps =
         Except.ok (c.withStaticFiles (c.static_files ++ fps))) ∧
    ((∃ f ∈ fps, isFile f = false) →
       ∃ g ∈ fps, isFile g = false ∧
         Chapter.add_static_files isFile c fps =
           Except.error (g ++ " is not a file")) := by
  constructor
  · intro h
    unfold Chapter.add_static_files
    rw [checkFilesExist_ok isFile fps h]
  · intro h
    obtain ⟨g, hg, hgf, hch⟩ := checkFilesExist_err isFile fps h
    exact ⟨g, hg, hgf, by unfold Chapter.add_static_files; rw [hch]⟩

theorem add_static_files_atomic_witness :
    Chapter.add_static_files (fun s => s == "a") (Chapter.init "c") ["a"] =
      Except.ok ((Chapter.init "c").withStaticFiles
        ((Chapter.init "c").static_files ++ ["a"])) ∧
    (∃ g ∈ ["a", "b"], (fun s : String => s == "a") g = false ∧
      Chapter.add_static_files (fun s => s == "a") (Chapter.init "c")
          ["a", "b"] =
        Except.error (g ++ " is not a file")) :=
  ⟨(add_static_files_atomic _ _ _).1 (by decide),
   (add_static_files_atomic _ _ _).2 ⟨"b", by decide, by decide⟩⟩

end KindleMaker
